import Mathlib

/-!
Shallow embedding of the `audio-notify-server` repository
(`src/audio_notify_server/{process,config,sound,tts,server}.py`).

External effects (the filesystem, `shutil.which`, `os.posix_spawn`,
`os.waitpid`, the ElevenLabs HTTP endpoint, environment variables and the
layered JSON config files) are modelled by an explicit environment record
`Env`; each embedded function returns its Python return value together with
the list of observable `Event`s (process spawns, terminal bells, HTTP calls,
temp-file creation/deletion) it performs, in order.
-/

namespace AudioNotify

/-! ## process.py -/

/-- One observation of `os.waitpid(pid, os.WNOHANG)` for the waited process:
still running, exited normally with a code, terminated abnormally (by a
signal, `os.WIFEXITED` false), or `ChildProcessError` (no such child /
already reaped). -/
inductive WaitObs
  | running
  | exited (code : Nat)
  | signalled
  | noChild
deriving DecidableEq, Repr

/-- Result of `wait_for_process`: normal return with the exit code,
`CommandError`, or `CommandTimeoutError`. -/
inductive WaitResult
  | ok (code : Nat)
  | cmdError
  | cmdTimeout
deriving DecidableEq, Repr

/-- Signals sent / reaping performed by `kill_process`. -/
inductive KillEvent
  | sigterm
  | sigkill
  | reap
deriving DecidableEq, Repr

/-- `kill_process` (process.py:55-67): SIGTERM, short sleep, SIGKILL, then
`os.waitpid(pid, 0)`.  If the process no longer exists, `ProcessLookupError`
is suppressed (skipping the signals) and only the reap is attempted. -/
def kill_process (alive : Bool) : List KillEvent :=
  if alive then [.sigterm, .sigkill, .reap] else [.reap]

/-- The polling loop of `wait_for_process` (process.py:34-52).  `poll n` is
the observation of the n-th `os.waitpid(pid, os.WNOHANG)` call; successive
polls are 0.01 s apart, so the elapsed-time check `time.time() - start_time
> timeout` becomes `timeoutTicks ≤ n` (with `timeoutTicks` the timeout in
0.01 s ticks).  A timed-out process is still running, hence
`kill_process true`. -/
def waitLoop (poll : Nat → WaitObs) (timeoutTicks : Nat) (n : Nat) :
    WaitResult × List KillEvent :=
  match poll n with
  | .noChild => (.ok 0, [])
  | .exited c => (.ok c, [])
  | .signalled => (.cmdError, [])
  | .running =>
    if timeoutTicks ≤ n then (.cmdTimeout, kill_process true)
    else waitLoop poll timeoutTicks (n + 1)
termination_by timeoutTicks + 1 - n
decreasing_by omega

/-- `wait_for_process(pid, timeout)` (process.py:19-52), starting the polling
loop at tick 0. -/
def wait_for_process (poll : Nat → WaitObs) (timeoutTicks : Nat) :
    WaitResult × List KillEvent :=
  waitLoop poll timeoutTicks 0

/-! ## config.py -/

/-- The `elevenlabs` object of a parsed config file; each field is `none`
when the key is absent.  (`api_key` may be present but the empty string.) -/
structure ElevenLabsSection where
  api_key : Option String
  voice_id : Option String
  model_id : Option String
  enabled : Option Bool
deriving DecidableEq, Repr

/-- A parsed config file: optional `max_message_length` and optional
`elevenlabs` object. -/
structure ConfigJson where
  max_message_length : Option Nat
  elevenlabs : Option ElevenLabsSection
deriving DecidableEq, Repr

/-- State of one config file location: absent, present but unreadable or
invalid JSON, or parsed. -/
inductive ConfigSource
  | missing
  | malformed
  | parsed (c : ConfigJson)
deriving DecidableEq, Repr

/-- `load_config` (config.py:33-52): user path first, then system path;
the first file that exists and parses wins; a malformed or unreadable file
is logged and skipped; otherwise the empty dict. -/
def load_config : ConfigSource → ConfigSource → ConfigJson
  | .parsed c, _ => c
  | _, .parsed c => c
  | _, _ => { max_message_length := none, elevenlabs := none }

def DEFAULT_MAX_MESSAGE_LENGTH : Nat := 500

/-- `get_max_message_length` (config.py:55-58). -/
def get_max_message_length (user system : ConfigSource) : Nat :=
  (load_config user system).max_message_length.getD DEFAULT_MAX_MESSAGE_LENGTH

def DEFAULT_ELEVENLABS_VOICE_ID : String := "21m00Tcm4TlvDq8ikWAM"

def DEFAULT_ELEVENLABS_MODEL_ID : String := "eleven_multilingual_v2"

/-- `ElevenLabsConfig` dataclass (config.py:23-30). -/
structure ElevenLabsConfig where
  enabled : Bool
  api_key : Option String
  voice_id : String
  model_id : String
deriving DecidableEq, Repr

/-- Python `a or b` on optional strings: `None` and `""` are falsy. -/
def pyOr (a b : Option String) : Option String :=
  match a with
  | some s => if s = "" then b else some s
  | none => b

/-- `config.get("elevenlabs", \x7b\x7d)`: the empty section. -/
def emptySection : ElevenLabsSection :=
  { api_key := none, voice_id := none, model_id := none, enabled := none }

/-! ## Environment and observable events -/

/-- Outcome of the ElevenLabs `client.post` call: 2xx response,
`httpx.HTTPStatusError` after `raise_for_status`, or `httpx.RequestError`. -/
inductive HttpOutcome
  | success
  | statusError
  | transportError
deriving DecidableEq, Repr

/-- Observable side effects of the notification core, in program order. -/
inductive Event
  | spawn (exe : String) (argv : List String)
  | bell
  | httpCall (url : String)
  | tempCreate (path : String)
  | tempDelete (path : String)
deriving DecidableEq, Repr

/-- The ambient state the Python code reads: the filesystem, `shutil.which`,
per-spawned-command `waitpid` observations, stdin-pipe write outcome, the
HTTP endpoint, the temp-file name allocator, environment variables, the two
config file locations, and the server's configured `sound_file`. -/
structure Env where
  exists_file : String → Bool
  which : String → Option String
  poll : String → List String → Nat → WaitObs
  pipeFails : String → Bool
  http : String → String → HttpOutcome
  tempName : String
  envApiKey : Option String
  envVoiceId : Option String
  envModelId : Option String
  userConfig : ConfigSource
  systemConfig : ConfigSource
  sound_file : Option String

/-- `get_elevenlabs_config` (config.py:61-100): env var overrides file for
the API key (Python `or`, so an empty env var falls through); `enabled` is
`config.get("enabled", True) and api_key is not None`; voice and model fall
back env → file → default. -/
def get_elevenlabs_config (env : Env) : ElevenLabsConfig :=
  let config := load_config env.userConfig env.systemConfig
  let elevenlabs_section := config.elevenlabs.getD emptySection
  let api_key := pyOr env.envApiKey elevenlabs_section.api_key
  let enabled := elevenlabs_section.enabled.getD true && api_key.isSome
  let voice_id :=
    (pyOr (pyOr env.envVoiceId elevenlabs_section.voice_id)
      (some DEFAULT_ELEVENLABS_VOICE_ID)).getD DEFAULT_ELEVENLABS_VOICE_ID
  let model_id :=
    (pyOr (pyOr env.envModelId elevenlabs_section.model_id)
      (some DEFAULT_ELEVENLABS_MODEL_ID)).getD DEFAULT_ELEVENLABS_MODEL_ID
  { enabled := enabled, api_key := api_key, voice_id := voice_id,
    model_id := model_id }

/-! ## sound.py -/

/-- Errors a `_safe_run_*_command` call can raise: `ValueError` (not in the
allowlist), `FileNotFoundError` (`shutil.which` found nothing),
`CommandError`, `CommandTimeoutError`, or `OSError` (stdin-pipe write
failure). -/
inductive RunErr
  | valueError
  | fileNotFound
  | cmdError
  | cmdTimeout
  | osError
deriving DecidableEq, Repr

/-- `AUDIO_PLAYBACK_TIMEOUT` = 10 s, in 0.01 s polling ticks. -/
def AUDIO_PLAYBACK_TIMEOUT_TICKS : Nat := 1000

/-- 30 s (local TTS and `_play_audio_file` fallback timeout), in ticks. -/
def TTS_TIMEOUT_TICKS : Nat := 3000

/-- `TRUSTED_AUDIO_PLAYERS` (sound.py:20). -/
def TRUSTED_AUDIO_PLAYERS : List String :=
  ["paplay", "pw-play", "aplay", "ffplay", "mpv"]

/-- `_safe_run_audio_command` (sound.py:23-85): allowlist check, `which`
resolution, `posix_spawn` of `[full_path, *player_cmd[1:]]` with streams
redirected to `/dev/null`, then `wait_for_process`; a nonzero exit raises
`CommandError`.  (`posix_spawn` itself is modelled as always succeeding;
call sites never pass an empty command.) -/
def _safe_run_audio_command (env : Env) (player_cmd : List String)
    (timeoutTicks : Nat) : Except RunErr Nat × List Event :=
  match player_cmd with
  | [] => (.error .valueError, [])
  | executable_name :: rest =>
    if executable_name ∈ TRUSTED_AUDIO_PLAYERS then
      match env.which executable_name with
      | none => (.error .fileNotFound, [])
      | some full_path =>
        let safe_cmd := full_path :: rest
        let ev : List Event := [.spawn full_path safe_cmd]
        match (wait_for_process (env.poll full_path safe_cmd) timeoutTicks).1 with
        | .ok exit_code =>
          if exit_code ≠ 0 then (.error .cmdError, ev) else (.ok exit_code, ev)
        | .cmdError => (.error .cmdError, ev)
        | .cmdTimeout => (.error .cmdTimeout, ev)
    else (.error .valueError, [])

/-- The candidate default sound locations (sound.py:91-97). -/
def DEFAULT_SOUND_PATHS : List String :=
  ["/usr/share/sounds/freedesktop/stereo/complete.oga",
   "/usr/share/sounds/freedesktop/stereo/message.oga",
   "/usr/share/sounds/gnome/default/alerts/drip.ogg",
   "/usr/share/sounds/ubuntu/stereo/message.ogg",
   "/usr/share/sounds/sound-icons/prompt.wav"]

/-- `get_default_sound` (sound.py:88-101): first existing candidate. -/
def get_default_sound (env : Env) : Option String :=
  DEFAULT_SOUND_PATHS.find? env.exists_file

/-- The player command list tried by `play_sound` (sound.py:130-136). -/
def soundPlayers (sound_path : String) : List (List String) :=
  [["paplay", sound_path],
   ["pw-play", sound_path],
   ["aplay", sound_path],
   ["ffplay", "-nodisp", "-autoexit", "-loglevel", "quiet", sound_path],
   ["mpv", "--no-video", "--really-quiet", sound_path]]

/-- The `for player_cmd in players` loop of `play_sound` (sound.py:138-154):
skip players `shutil.which` cannot find, suppress every
`_safe_run_audio_command` error and move on, return `True` on the first
success; when the list is exhausted, emit the terminal bell and return
`True`. -/
def playSoundLoop (env : Env) : List (List String) → Bool × List Event
  | [] => (true, [.bell])
  | player_cmd :: rest =>
    if (env.which (player_cmd.headD "")).isSome then
      match _safe_run_audio_command env player_cmd AUDIO_PLAYBACK_TIMEOUT_TICKS with
      | (.ok _, ev) => (true, ev)
      | (.error _, ev) =>
        let r := playSoundLoop env rest
        (r.1, ev ++ r.2)
    else playSoundLoop env rest

/-- `play_sound` (sound.py:104-154). -/
def play_sound (env : Env) (sound_path : Option String) : Bool × List Event :=
  let resolved := match sound_path with
    | none => get_default_sound env
    | some p => some p
  match resolved with
  | none => (true, [.bell])
  | some p =>
    if env.exists_file p then playSoundLoop env (soundPlayers p)
    else (false, [.bell])

/-! ## tts.py -/

/-- `TRUSTED_TTS_ENGINES` (tts.py:28). -/
def TRUSTED_TTS_ENGINES : List String :=
  ["espeak", "espeak-ng", "spd-say", "festival"]

def ELEVENLABS_API_URL : String := "https://api.elevenlabs.io/v1/text-to-speech"

/-- `_safe_run_tts_command` (tts.py:72-160): like the audio variant, but
optionally feeds `input_data` to the child over a pipe
(`_write_to_pipe_nonblocking`, tts.py:40-69, whose timeout or `EPIPE`
surfaces as `OSError`, modelled by `env.pipeFails`). -/
def _safe_run_tts_command (env : Env) (tts_cmd : List String)
    (timeoutTicks : Nat) (input_data : Option String) :
    Except RunErr Nat × List Event :=
  match tts_cmd with
  | [] => (.error .valueError, [])
  | executable_name :: rest =>
    if executable_name ∈ TRUSTED_TTS_ENGINES then
      match env.which executable_name with
      | none => (.error .fileNotFound, [])
      | some full_path =>
        let safe_cmd := full_path :: rest
        let ev : List Event := [.spawn full_path safe_cmd]
        let pipeFailed := match input_data with
          | some data => env.pipeFails data
          | none => false
        if pipeFailed then (.error .osError, ev)
        else
          match (wait_for_process (env.poll full_path safe_cmd) timeoutTicks).1 with
          | .ok exit_code =>
            if exit_code ≠ 0 then (.error .cmdError, ev) else (.ok exit_code, ev)
          | .cmdError => (.error .cmdError, ev)
          | .cmdTimeout => (.error .cmdTimeout, ev)
    else (.error .valueError, [])

/-- The direct-spawn fallback player list of `_play_audio_file`
(tts.py:235-238). -/
def ttsFallbackPlayers (path : String) : List (List String) :=
  [["mpv", "--no-video", "--really-quiet", path],
   ["ffplay", "-nodisp", "-autoexit", "-loglevel", "quiet", path]]

/-- The fallback loop of `_play_audio_file` (tts.py:240-270): only players
in `TRUSTED_AUDIO_PLAYERS` found by `shutil.which` are spawned directly;
exit code 0 returns `True`; a nonzero exit, `CommandError` or
`CommandTimeoutError` moves to the next candidate. -/
def playAudioFileLoop (env : Env) : List (List String) → Bool × List Event
  | [] => (false, [])
  | player_cmd :: rest =>
    let player := player_cmd.headD ""
    if player ∈ TRUSTED_AUDIO_PLAYERS then
      match env.which player with
      | none => playAudioFileLoop env rest
      | some full_path =>
        let safe_cmd := full_path :: player_cmd.tail
        match (wait_for_process (env.poll full_path safe_cmd) TTS_TIMEOUT_TICKS).1 with
        | .ok 0 => (true, [.spawn full_path safe_cmd])
        | _ =>
          let r := playAudioFileLoop env rest
          (r.1, .spawn full_path safe_cmd :: r.2)
    else playAudioFileLoop env rest

/-- `_play_audio_file` (tts.py:217-270): try `play_sound` first, then the
direct mpv/ffplay fallbacks. -/
def _play_audio_file (env : Env) (path : String) : Bool × List Event :=
  let r := play_sound env (some path)
  if r.1 then (true, r.2)
  else
    let f := playAudioFileLoop env (ttsFallbackPlayers path)
    (f.1, r.2 ++ f.2)

/-- Python falsiness of the optional API key: `None` or `""`. -/
def pyFalsyKey : Option String → Bool
  | none => true
  | some s => s == ""

/-- `_speak_elevenlabs` (tts.py:163-214): refuse a falsy API key before any
network activity; POST to the voice's synthesis URL; on HTTP or transport
error return `False`; on success write the audio to a temp file, play it,
and delete the temp file in a `finally` block on every exit path. -/
def _speak_elevenlabs (env : Env) (message : String)
    (config : ElevenLabsConfig) : Bool × List Event :=
  if pyFalsyKey config.api_key then (false, [])
  else
    let url := ELEVENLABS_API_URL ++ "/" ++ config.voice_id
    match env.http url message with
    | .statusError => (false, [.httpCall url])
    | .transportError => (false, [.httpCall url])
    | .success =>
      let temp_path := env.tempName
      let r := _play_audio_file env temp_path
      (r.1, [.httpCall url, .tempCreate temp_path] ++ r.2 ++ [.tempDelete temp_path])

/-- The local TTS command list (tts.py:283-288); `festival` alone takes the
message on stdin. -/
def ttsCommands (message : String) : List (List String) :=
  [["espeak", message],
   ["espeak-ng", message],
   ["spd-say", message],
   ["festival", "--tts"]]

/-- The candidate loop of `_speak_local` (tts.py:290-309): skip engines
`shutil.which` cannot find, suppress every error and move on, return `True`
on first success, `False` when the list is exhausted. -/
def speakLocalLoop (env : Env) (message : String) :
    List (List String) → Bool × List Event
  | [] => (false, [])
  | cmd :: rest =>
    if (env.which (cmd.headD "")).isSome then
      let r := if cmd.headD "" == "festival"
        then _safe_run_tts_command env cmd TTS_TIMEOUT_TICKS (some message)
        else _safe_run_tts_command env cmd TTS_TIMEOUT_TICKS none
      match r with
      | (.ok _, ev) => (true, ev)
      | (.error _, ev) =>
        let r2 := speakLocalLoop env message rest
        (r2.1, ev ++ r2.2)
    else speakLocalLoop env message rest

/-- `_speak_local` (tts.py:273-309). -/
def _speak_local (env : Env) (message : String) : Bool × List Event :=
  speakLocalLoop env message (ttsCommands message)

/-- `speak` (tts.py:312-335): empty message fails immediately; otherwise try
ElevenLabs when the resolved config is enabled, falling back to the local
engines when it is disabled or fails. -/
def speak (env : Env) (message : String) : Bool × List Event :=
  if message == "" then (false, [])
  else
    let elevenlabs_config := get_elevenlabs_config env
    if elevenlabs_config.enabled then
      match _speak_elevenlabs env message elevenlabs_config with
      | (true, ev) => (true, ev)
      | (false, ev) =>
        let r := _speak_local env message
        (r.1, ev ++ r.2)
    else
      let r := _speak_local env message
      (r.1, r.2)

/-! ## server.py -/

/-- `NotifyRequest` (server.py:22-27): the POST body, with defaults
`message=""`, `sound=True`, `speak=False`. -/
structure NotifyRequest where
  message : String
  sound : Bool
  speak : Bool
deriving DecidableEq, Repr

/-- `ActionResult` (server.py:30-35); `message` defaults to `None`. -/
structure ActionResult where
  type : String
  success : Bool
  message : Option String := none
deriving DecidableEq, Repr

/-- `NotifyResponse` (server.py:38-42). -/
structure NotifyResponse where
  success : Bool
  actions : List ActionResult
deriving DecidableEq, Repr

/-- Outcome of a `/notify` handler: a 200 `NotifyResponse`, or the
`HTTPException(status_code=400, detail=...)` raised for an over-long
message. -/
inductive HandlerResult
  | ok (resp : NotifyResponse)
  | badRequest (detail : String)
deriving DecidableEq, Repr

/-- The 400 detail f-string shared by both handlers
(server.py:100-102 and 156-158). -/
def tooLongDetail (n max_length : Nat) : String :=
  "Message too long (" ++ toString n ++
    " characters). Maximum allowed length is " ++ toString max_length ++
    " characters. Please summarize your message."

/-- `notify_post` (server.py:95-135): length validation against
`get_max_message_length()` before any side effect, then the optional sound
and speech actions in order. -/
def notify_post (env : Env) (body : NotifyRequest) :
    HandlerResult × List Event :=
  let max_length := get_max_message_length env.userConfig env.systemConfig
  if body.message.length > max_length then
    (.badRequest (tooLongDetail body.message.length max_length), [])
  else
    let soundPart : List ActionResult × List Event :=
      if body.sound then
        let sound_played := play_sound env env.sound_file
        ([{ type := "sound", success := sound_played.1 }], sound_played.2)
      else ([], [])
    let speakPart : List ActionResult × List Event :=
      if body.speak && !(body.message == "") then
        let spoken := speak env body.message
        ([{ type := "tts", success := spoken.1, message := some body.message }],
          spoken.2)
      else ([], [])
    (.ok { success := true, actions := soundPart.1 ++ speakPart.1 },
      soundPart.2 ++ speakPart.2)

/-- `notify_get` (server.py:143-191): the GET form, with query parameters
`message`, `sound` and `speak` (the latter bound to the Python variable
`speak_msg` through a query alias). -/
def notify_get (env : Env) (message : String) (sound : Bool)
    (speak_msg : Bool) : HandlerResult × List Event :=
  let max_length := get_max_message_length env.userConfig env.systemConfig
  if message.length > max_length then
    (.badRequest (tooLongDetail message.length max_length), [])
  else
    let soundPart : List ActionResult × List Event :=
      if sound then
        let sound_played := play_sound env env.sound_file
        ([{ type := "sound", success := sound_played.1 }], sound_played.2)
      else ([], [])
    let speakPart : List ActionResult × List Event :=
      if speak_msg && !(message == "") then
        let spoken := speak env message
        ([{ type := "tts", success := spoken.1, message := some message }],
          spoken.2)
      else ([], [])
    (.ok { success := true, actions := soundPart.1 ++ speakPart.1 },
      soundPart.2 ++ speakPart.2)

/-! ## Concrete environments used to instantiate the theorems -/

/-- A bare machine: no files, no executables on PATH, no network success,
no configuration. -/
def testEnv : Env :=
  { exists_file := fun _ => false
    which := fun _ => none
    poll := fun _ _ _ => .running
    pipeFails := fun _ => false
    http := fun _ _ => .transportError
    tempName := "/tmp/notify-tts.mp3"
    envApiKey := none
    envVoiceId := none
    envModelId := none
    userConfig := .missing
    systemConfig := .missing
    sound_file := none }

/-- Every path exists, but no executable can be found. -/
def testEnvFS : Env := { testEnv with exists_file := fun _ => true }

/-- Executables resolve under `/usr/bin`, files exist, and every spawned
process is terminated by a signal (`os.WIFEXITED` false at the first
`waitpid` poll). -/
def envSig : Env :=
  { testEnv with
    exists_file := fun _ => true
    which := fun name => if name = "paplay" then some "/usr/bin/paplay" else none
    poll := fun _ _ _ => .signalled }

/-- A user config file whose `elevenlabs.api_key` is present but the empty
string, with no `enabled` key. -/
def envC6 : Env :=
  { testEnv with
    userConfig := .parsed
      { max_message_length := none
        elevenlabs := some
          { api_key := some "", voice_id := none, model_id := none,
            enabled := none } } }

/-- The ElevenLabs endpoint answers with HTTP success. -/
def envHttp : Env := { testEnv with http := fun _ _ => .success }

/-! ## Lemmas about the process runner -/

theorem waitLoop_unfold (poll : Nat → WaitObs) (tt n : Nat) :
    waitLoop poll tt n =
      match poll n with
      | .noChild => (.ok 0, [])
      | .exited c => (.ok c, [])
      | .signalled => (.cmdError, [])
      | .running =>
        if tt ≤ n then (.cmdTimeout, kill_process true)
        else waitLoop poll tt (n + 1) := by
  rw [waitLoop]

/-- The polling loop times out exactly when every poll from its start tick
through the timeout tick reports a still-running process, and in that case
the recorded kill sequence is SIGTERM, SIGKILL, reap. -/
theorem waitLoop_spec (poll : Nat → WaitObs) (tt : Nat) :
    ∀ n, n ≤ tt →
      (((waitLoop poll tt n).1 = .cmdTimeout) ↔
        (∀ k, n ≤ k → k ≤ tt → poll k = .running)) ∧
      (((waitLoop poll tt n).1 = .cmdTimeout) →
        (waitLoop poll tt n).2 = [.sigterm, .sigkill, .reap]) := by
  have main : ∀ f n, tt - n = f → n ≤ tt →
      (((waitLoop poll tt n).1 = .cmdTimeout) ↔
        (∀ k, n ≤ k → k ≤ tt → poll k = .running)) ∧
      (((waitLoop poll tt n).1 = .cmdTimeout) →
        (waitLoop poll tt n).2 = [.sigterm, .sigkill, .reap]) := by
    intro f
    induction f with
    | zero =>
      intro n hf hn
      have hif : tt ≤ n := by omega
      cases h : poll n with
      | running =>
        have hw : waitLoop poll tt n = (.cmdTimeout, kill_process true) := by
          rw [waitLoop_unfold, h]
          simp [hif]
        rw [hw]
        refine ⟨⟨fun _ k hk1 hk2 => ?_, fun _ => rfl⟩, fun _ => rfl⟩
        have hk : k = n := by omega
        rw [hk, h]
      | exited c =>
        have hw : waitLoop poll tt n = (.ok c, []) := by rw [waitLoop_unfold, h]
        rw [hw]
        refine ⟨⟨fun hc => by simp at hc, fun hall => ?_⟩, fun hc => by simp at hc⟩
        have hx := hall n le_rfl hn
        rw [h] at hx
        simp at hx
      | signalled =>
        have hw : waitLoop poll tt n = (.cmdError, []) := by rw [waitLoop_unfold, h]
        rw [hw]
        refine ⟨⟨fun hc => by simp at hc, fun hall => ?_⟩, fun hc => by simp at hc⟩
        have hx := hall n le_rfl hn
        rw [h] at hx
        simp at hx
      | noChild =>
        have hw : waitLoop poll tt n = (.ok 0, []) := by rw [waitLoop_unfold, h]
        rw [hw]
        refine ⟨⟨fun hc => by simp at hc, fun hall => ?_⟩, fun hc => by simp at hc⟩
        have hx := hall n le_rfl hn
        rw [h] at hx
        simp at hx
    | succ f ih =>
      intro n hf hn
      have hlt : n < tt := by omega
      cases h : poll n with
      | running =>
        have hw : waitLoop poll tt n = waitLoop poll tt (n + 1) := by
          rw [waitLoop_unfold, h]
          simp [Nat.not_le.mpr hlt]
        rw [hw]
        obtain ⟨ih1, ih2⟩ := ih (n + 1) (by omega) (by omega)
        refine ⟨⟨fun hc k hk1 hk2 => ?_,
          fun hall => ih1.mpr fun k hk1 hk2 => hall k (by omega) hk2⟩, ih2⟩
        rcases Nat.eq_or_lt_of_le hk1 with heq | hgt
        · rw [← heq, h]
        · exact ih1.mp hc k (by omega) hk2
      | exited c =>
        have hw : waitLoop poll tt n = (.ok c, []) := by rw [waitLoop_unfold, h]
        rw [hw]
        refine ⟨⟨fun hc => by simp at hc, fun hall => ?_⟩, fun hc => by simp at hc⟩
        have hx := hall n le_rfl (by omega)
        rw [h] at hx
        simp at hx
      | signalled =>
        have hw : waitLoop poll tt n = (.cmdError, []) := by rw [waitLoop_unfold, h]
        rw [hw]
        refine ⟨⟨fun hc => by simp at hc, fun hall => ?_⟩, fun hc => by simp at hc⟩
        have hx := hall n le_rfl (by omega)
        rw [h] at hx
        simp at hx
      | noChild =>
        have hw : waitLoop poll tt n = (.ok 0, []) := by rw [waitLoop_unfold, h]
        rw [hw]
        refine ⟨⟨fun hc => by simp at hc, fun hall => ?_⟩, fun hc => by simp at hc⟩
        have hx := hall n le_rfl (by omega)
        rw [h] at hx
        simp at hx
  intro n hn
  exact main (tt - n) n rfl hn

/-- `wait_for_process` times out exactly when the process is still running
at every poll up to the timeout tick. -/
theorem wait_for_process_timeout_iff (poll : Nat → WaitObs) (tt : Nat) :
    ((wait_for_process poll tt).1 = .cmdTimeout ↔
      ∀ k, k ≤ tt → poll k = .running) ∧
    ((wait_for_process poll tt).1 = .cmdTimeout →
      (wait_for_process poll tt).2 = [.sigterm, .sigkill, .reap]) := by
  obtain ⟨h1, h2⟩ := waitLoop_spec poll tt 0 (Nat.zero_le tt)
  exact ⟨⟨fun hc k hk => h1.mp hc k (Nat.zero_le k) hk,
    fun hall => h1.mpr fun k _ hk => hall k hk⟩, h2⟩

/-! ## Claim C10 -/

/-- C10: for a process id that is not a child of the caller
(`os.waitpid` raises `ChildProcessError` at the first poll),
`wait_for_process` returns exit code 0 without raising, exactly as for a
process that already exited successfully. -/
theorem wait_for_process_vanished_child (poll poll2 : Nat → WaitObs)
    (tt : Nat) (h : poll 0 = .noChild) (h2 : poll2 0 = .exited 0) :
    wait_for_process poll tt = (.ok 0, []) ∧
    wait_for_process poll tt = wait_for_process poll2 tt := by
  have e1 : wait_for_process poll tt = (.ok 0, []) := by
    rw [wait_for_process, waitLoop_unfold, h]
  have e2 : wait_for_process poll2 tt = (.ok 0, []) := by
    rw [wait_for_process, waitLoop_unfold, h2]
  exact ⟨e1, by rw [e1, e2]⟩

theorem wait_for_process_vanished_child_witness :
    wait_for_process (fun _ => WaitObs.noChild) 3 = (.ok 0, []) ∧
    wait_for_process (fun _ => WaitObs.noChild) 3 =
      wait_for_process (fun _ => WaitObs.exited 0) 3 :=
  wait_for_process_vanished_child (fun _ => .noChild) (fun _ => .exited 0) 3
    rfl rfl

/-! ## Claim C8 -/

/-- C8: for every combination of message, sound flag and (aliased) speak
flag, the GET `/notify` handler returns exactly the same result — status,
success, actions and side effects — as the POST handler on the same
values. -/
theorem notify_get_equals_notify_post (env : Env) (message : String)
    (sound speak_msg : Bool) :
    notify_get env message sound speak_msg =
      notify_post env { message := message, sound := sound, speak := speak_msg } :=
  rfl

/-! ## Claims C1 and C2 -/

/-- `sub` occurs inside `s`. -/
def mentionsSub (s sub : String) : Prop := ∃ a b, s = a ++ sub ++ b

theorem tooLongDetail_mentions (n m : Nat) :
    mentionsSub (tooLongDetail n m) (toString n) ∧
    mentionsSub (tooLongDetail n m) (toString m) := by
  constructor
  · refine ⟨"Message too long (",
      " characters). Maximum allowed length is " ++ toString m ++
        " characters. Please summarize your message.", ?_⟩
    simp [tooLongDetail, String.append_assoc]
  · refine ⟨"Message too long (" ++ toString n ++
      " characters). Maximum allowed length is ",
      " characters. Please summarize your message.", ?_⟩
    simp [tooLongDetail, String.append_assoc]

/-- A valid request produces exactly the sound-then-tts response and event
trace. -/
theorem notify_post_valid (env : Env) (body : NotifyRequest)
    (h : body.message.length ≤ get_max_message_length env.userConfig env.systemConfig) :
    notify_post env body =
      (.ok { success := true, actions :=
        (if body.sound then
          [{ type := "sound", success := (play_sound env env.sound_file).1,
             message := none }]
         else []) ++
        (if body.speak && !(body.message == "") then
          [{ type := "tts", success := (speak env body.message).1,
             message := some body.message }]
         else []) },
       (if body.sound then (play_sound env env.sound_file).2 else []) ++
       (if body.speak && !(body.message == "") then (speak env body.message).2
        else [])) := by
  have h' : ¬ (body.message.length >
      get_max_message_length env.userConfig env.systemConfig) := by omega
  cases hs : body.sound <;>
    cases hsp : (body.speak && !(body.message == "")) <;>
      simp [notify_post, h', hs, hsp]

/-- C1: the handler raises HTTP 400 — with a detail mentioning the actual
and the maximum length, and with no sound or speech action invoked — if and
only if the message is longer than the configured maximum; any request at
or under the maximum gets a 200 response with `success = true`, whatever
the individual actions did. -/
theorem notify_post_length_validation (env : Env) (body : NotifyRequest) :
    (body.message.length > get_max_message_length env.userConfig env.systemConfig →
      notify_post env body =
        (.badRequest (tooLongDetail body.message.length
          (get_max_message_length env.userConfig env.systemConfig)), []) ∧
      mentionsSub
        (tooLongDetail body.message.length
          (get_max_message_length env.userConfig env.systemConfig))
        (toString body.message.length) ∧
      mentionsSub
        (tooLongDetail body.message.length
          (get_max_message_length env.userConfig env.systemConfig))
        (toString (get_max_message_length env.userConfig env.systemConfig))) ∧
    (body.message.length ≤ get_max_message_length env.userConfig env.systemConfig →
      ∃ actions, (notify_post env body).1 =
        .ok { success := true, actions := actions }) := by
  constructor
  · intro h
    refine ⟨?_, (tooLongDetail_mentions _ _).1, (tooLongDetail_mentions _ _).2⟩
    simp [notify_post, h]
  · intro h
    exact ⟨_, by rw [notify_post_valid env body h]⟩

/-- A message of 501 `x` characters. -/
def longMsg : String := String.mk (List.replicate 501 'x')

theorem longMsg_length : longMsg.length = 501 := by
  show (List.replicate 501 'x').length = 501
  rw [List.length_replicate]

theorem notify_post_length_validation_witness :
    (notify_post testEnv { message := longMsg, sound := true, speak := false } =
      (.badRequest (tooLongDetail longMsg.length 500), []) ∧
      mentionsSub (tooLongDetail longMsg.length 500) (toString longMsg.length) ∧
      mentionsSub (tooLongDetail longMsg.length 500) (toString 500)) ∧
    (∃ actions, (notify_post testEnv { message := "", sound := true, speak := false }).1 =
      .ok { success := true, actions := actions }) := by
  constructor
  · exact (notify_post_length_validation testEnv
      { message := longMsg, sound := true, speak := false }).1
      (by rw [longMsg_length]; decide)
  · exact (notify_post_length_validation testEnv
      { message := "", sound := true, speak := false }).2 (by decide)

/-- C2: for every valid request the actions list is exactly one `sound`
entry (no message recorded) when `sound=true`, followed by exactly one
`tts` entry echoing the request message when `speak=true` and the message
is non-empty, and nothing else; its length is the sum of the two
indicator values. -/
theorem notify_post_actions_shape (env : Env) (body : NotifyRequest)
    (h : body.message.length ≤ get_max_message_length env.userConfig env.systemConfig) :
    (notify_post env body).1 = .ok { success := true, actions :=
        (if body.sound then
          [{ type := "sound", success := (play_sound env env.sound_file).1,
             message := none }]
         else []) ++
        (if body.speak && !(body.message == "") then
          [{ type := "tts", success := (speak env body.message).1,
             message := some body.message }]
         else []) } ∧
    (∀ resp, (notify_post env body).1 = .ok resp →
      resp.actions.length =
        (if body.sound then 1 else 0) +
        (if body.speak && !(body.message == "") then 1 else 0)) := by
  have he : (notify_post env body).1 = .ok { success := true, actions :=
      (if body.sound then
        [{ type := "sound", success := (play_sound env env.sound_file).1,
           message := none }]
       else []) ++
      (if body.speak && !(body.message == "") then
        [{ type := "tts", success := (speak env body.message).1,
           message := some body.message }]
       else []) } := by
    rw [notify_post_valid env body h]
  refine ⟨he, fun resp hr => ?_⟩
  rw [he] at hr
  injection hr with hr
  rw [← hr]
  cases body.sound <;> cases (body.speak && !(body.message == "")) <;> simp

theorem notify_post_actions_shape_witness :
    (notify_post testEnv { message := "hi", sound := true, speak := true }).1 =
      .ok { success := true, actions :=
        [{ type := "sound", success := true, message := none },
         { type := "tts", success := false, message := some "hi" }] } ∧
    (∀ resp, (notify_post testEnv { message := "hi", sound := true, speak := true }).1 =
        .ok resp → resp.actions.length = 2) := by
  have h := notify_post_actions_shape testEnv
    { message := "hi", sound := true, speak := true } (by decide)
  constructor
  · rw [h.1]
    decide
  · intro resp hr
    have := h.2 resp hr
    simpa using this

/-! ## Claim C3 -/

/-- One candidate of the `play_sound` loop comes to nothing: either
`shutil.which` cannot find the player, or running it raises one of the
suppressed errors. -/
def playerAttemptFails (env : Env) (cmd : List String) : Prop :=
  env.which (cmd.headD "") = none ∨
  ∃ e ev, _safe_run_audio_command env cmd AUDIO_PLAYBACK_TIMEOUT_TICKS =
    (.error e, ev)

/-- Once `play_sound` is past the existence check, its player loop always
reports success (the trailing terminal bell counts as success). -/
theorem playSoundLoop_true (env : Env) :
    ∀ cmds, (playSoundLoop env cmds).1 = true := by
  intro cmds
  induction cmds with
  | nil => rfl
  | cons c rest ih =>
    rw [playSoundLoop]
    cases hwv : env.which (c.headD "") with
    | none => simpa [hwv] using ih
    | some fp =>
      simp only [hwv, Option.isSome_some, if_true]
      rcases hr : _safe_run_audio_command env c AUDIO_PLAYBACK_TIMEOUT_TICKS
        with ⟨res, ev⟩
      cases res with
      | ok v => rfl
      | error e => simpa using ih

/-- If every candidate fails or is unavailable, the loop still succeeds and
the terminal bell is in its trace. -/
theorem playSoundLoop_allFail (env : Env) :
    ∀ cmds, (∀ cmd ∈ cmds, playerAttemptFails env cmd) →
      (playSoundLoop env cmds).1 = true ∧
      Event.bell ∈ (playSoundLoop env cmds).2 := by
  intro cmds
  induction cmds with
  | nil => exact fun _ => ⟨rfl, by simp [playSoundLoop]⟩
  | cons c rest ih =>
    intro hall
    have ihr := ih (fun cmd hm => hall cmd (List.mem_cons_of_mem _ hm))
    rw [playSoundLoop]
    cases hwv : env.which (c.headD "") with
    | none => simpa [hwv] using ihr
    | some fp =>
      simp only [hwv, Option.isSome_some, if_true]
      rcases hall c (List.mem_cons_self _ _) with hnone | ⟨e, ev, herr⟩
      · rw [hwv] at hnone
        exact Option.noConfusion hnone
      · rw [herr]
        exact ⟨ihr.1, by simp [ihr.2]⟩

/-- C3: an explicit but nonexistent sound path yields the bell and
failure; no path and no default sound yields the bell and success; a path
that exists but whose every player candidate fails or is unavailable still
yields success with the bell in the trace; and a call with no path always
reports success. -/
theorem play_sound_fallback_contract (env : Env) (p : String) :
    (env.exists_file p = false → play_sound env (some p) = (false, [.bell])) ∧
    (get_default_sound env = none → play_sound env none = (true, [.bell])) ∧
    ((∀ cmd ∈ soundPlayers p, playerAttemptFails env cmd) →
      env.exists_file p = true →
      (play_sound env (some p)).1 = true ∧
      Event.bell ∈ (play_sound env (some p)).2) ∧
    (play_sound env none).1 = true := by
  refine ⟨fun hex => ?_, fun hdef => ?_, fun hfail hex => ?_, ?_⟩
  · simp [play_sound, hex]
  · simp [play_sound, hdef]
  · have h := playSoundLoop_allFail env (soundPlayers p) hfail
    simpa [play_sound, hex] using h
  · rw [play_sound]
    cases hd : get_default_sound env with
    | none => rfl
    | some q =>
      have hq : env.exists_file q = true := by
        rw [get_default_sound] at hd
        exact List.find?_some hd
      simp [hd, hq, playSoundLoop_true]

theorem play_sound_fallback_contract_witness :
    play_sound testEnv (some "/no/file.wav") = (false, [.bell]) ∧
    play_sound testEnv none = (true, [.bell]) ∧
    ((play_sound testEnvFS (some "/custom.wav")).1 = true ∧
      Event.bell ∈ (play_sound testEnvFS (some "/custom.wav")).2) ∧
    (play_sound testEnv none).1 = true := by
  refine ⟨(play_sound_fallback_contract testEnv "/no/file.wav").1 rfl,
    (play_sound_fallback_contract testEnv "/x").2.1 rfl,
    (play_sound_fallback_contract testEnvFS "/custom.wav").2.2.1
      (fun cmd _ => Or.inl rfl) rfl,
    (play_sound_fallback_contract testEnv "/x").2.2.2⟩

/-! ## Claim C4 -/

/-- C4 counterexample: a spawned `paplay` that is terminated by a signal
makes the run helper raise `CommandError`, although the process never
exits with any status, nonzero or otherwise — so "CommandError if and only
if the process exits with a nonzero status" is false as stated. -/
theorem run_helper_signalled_counterexample :
    (_safe_run_audio_command envSig ["paplay", "/tmp/f.wav"] 5).1 =
      Except.error RunErr.cmdError ∧
    (∀ n, envSig.poll "/usr/bin/paplay" ["/usr/bin/paplay", "/tmp/f.wav"] n =
      WaitObs.signalled) := by
  constructor
  · have hwp : (wait_for_process
        (envSig.poll "/usr/bin/paplay" ["/usr/bin/paplay", "/tmp/f.wav"]) 5).1 =
        .cmdError := by
      rw [wait_for_process, waitLoop_unfold]
      simp [envSig, testEnv]
    simp [_safe_run_audio_command, envSig, testEnv, TRUSTED_AUDIO_PLAYERS] at hwp ⊢
    rw [hwp]
  · intro n
    rfl

/-- C4 (amended): waiting raises `CommandTimeoutError` exactly when the
process is still running at every poll through the timeout tick, and then
the process receives SIGTERM, then SIGKILL, and is reaped; the run helper
raises `CommandError` exactly when the spawned process exits with a
nonzero status **or terminates abnormally (is killed by a signal)**. -/
theorem process_runner_contract (poll : Nat → WaitObs) (tt : Nat) (env : Env)
    (name : String) (rest : List String) (full_path : String)
    (hmem : name ∈ TRUSTED_AUDIO_PLAYERS)
    (hwhich : env.which name = some full_path) :
    ((wait_for_process poll tt).1 = .cmdTimeout ↔
      ∀ k, k ≤ tt → poll k = .running) ∧
    ((wait_for_process poll tt).1 = .cmdTimeout →
      (wait_for_process poll tt).2 = [.sigterm, .sigkill, .reap]) ∧
    ((_safe_run_audio_command env (name :: rest) tt).1 =
        Except.error RunErr.cmdError ↔
      ((∃ c, c ≠ 0 ∧
          (wait_for_process (env.poll full_path (full_path :: rest)) tt).1 =
            .ok c) ∨
        (wait_for_process (env.poll full_path (full_path :: rest)) tt).1 =
          .cmdError)) := by
  refine ⟨(wait_for_process_timeout_iff poll tt).1,
    (wait_for_process_timeout_iff poll tt).2, ?_⟩
  simp only [_safe_run_audio_command, hmem, if_true, hwhich]
  cases hw : (wait_for_process (env.poll full_path (full_path :: rest)) tt).1 with
  | ok c =>
    cases c with
    | zero => simp
    | succ c => simp
  | cmdError => simp
  | cmdTimeout => simp

theorem process_runner_contract_witness :
    (((wait_for_process (fun _ => WaitObs.running) 2).1 = .cmdTimeout ↔
        ∀ k, k ≤ 2 → (fun _ => WaitObs.running) k = .running) ∧
      ((wait_for_process (fun _ => WaitObs.running) 2).1 = .cmdTimeout →
        (wait_for_process (fun _ => WaitObs.running) 2).2 =
          [.sigterm, .sigkill, .reap]) ∧
      ((_safe_run_audio_command envSig ["paplay"] 2).1 =
          Except.error RunErr.cmdError ↔
        ((∃ c, c ≠ 0 ∧
            (wait_for_process (envSig.poll "/usr/bin/paplay" ["/usr/bin/paplay"]) 2).1 =
              .ok c) ∨
          (wait_for_process (envSig.poll "/usr/bin/paplay" ["/usr/bin/paplay"]) 2).1 =
            .cmdError))) ∧
    (wait_for_process (fun _ => WaitObs.running) 2).1 = .cmdTimeout := by
  have h := process_runner_contract (fun _ => WaitObs.running) 2 envSig
    "paplay" [] "/usr/bin/paplay" (by decide) (by simp [envSig, testEnv])
  exact ⟨h, h.1.mpr fun k _ => rfl⟩

/-! ## Claim C5 -/

/-- An event is spawn-safe for an allowlist: if it is a process spawn at
all, the executable is the `shutil.which` resolution of an allowlisted
name, and the argument vector is that resolved path followed by the
remaining (list-passed, never shell-concatenated) arguments. -/
def SpawnSafe (env : Env) (allow : List String) : Event → Prop
  | .spawn exe argv =>
    ∃ name rest, name ∈ allow ∧ env.which name = some exe ∧ argv = exe :: rest
  | _ => True

theorem SpawnSafe_mono {env : Env} {A B : List String} {e : Event}
    (hAB : ∀ x ∈ A, x ∈ B) (h : SpawnSafe env A e) : SpawnSafe env B e := by
  cases e with
  | spawn exe argv =>
    obtain ⟨name, rest, h1, h2, h3⟩ := h
    exact ⟨name, rest, hAB name h1, h2, h3⟩
  | bell => trivial
  | httpCall u => trivial
  | tempCreate p => trivial
  | tempDelete p => trivial

/-- The event trace of `_safe_run_audio_command` is empty (validation or
`which` failed before the spawn) or the single spawn of the resolved
allowlisted executable. -/
theorem safe_run_audio_trace (env : Env) (cmd : List String) (tt : Nat) :
    (_safe_run_audio_command env cmd tt).2 = [] ∨
    ∃ name rest fp, cmd = name :: rest ∧ name ∈ TRUSTED_AUDIO_PLAYERS ∧
      env.which name = some fp ∧
      (_safe_run_audio_command env cmd tt).2 = [Event.spawn fp (fp :: rest)] := by
  cases cmd with
  | nil => exact Or.inl rfl
  | cons name rest =>
    by_cases hmem : name ∈ TRUSTED_AUDIO_PLAYERS
    · cases hw : env.which name with
      | none =>
        left
        simp [_safe_run_audio_command, hmem, hw]
      | some fp =>
        right
        refine ⟨name, rest, fp, rfl, hmem, hw, ?_⟩
        simp only [_safe_run_audio_command, hmem, if_true, hw]
        cases (wait_for_process (env.poll fp (fp :: rest)) tt).1 with
        | ok ec => by_cases hec : ec ≠ 0 <;> simp [hec]
        | cmdError => rfl
        | cmdTimeout => rfl
    · left
      simp [_safe_run_audio_command, hmem]

theorem safe_run_audio_events (env : Env) (cmd : List String) (tt : Nat) :
    ∀ e ∈ (_safe_run_audio_command env cmd tt).2,
      SpawnSafe env TRUSTED_AUDIO_PLAYERS e := by
  intro e he
  rcases safe_run_audio_trace env cmd tt with h | ⟨name, rest, fp, _, hmem, hw, h⟩
  · rw [h] at he
    simp at he
  · rw [h] at he
    simp at he
    subst he
    exact ⟨name, rest, hmem, hw, rfl⟩

/-- Same trace shape for `_safe_run_tts_command` (the spawn happens before
the stdin-pipe write, so a pipe failure still leaves the single spawn in
the trace). -/
theorem safe_run_tts_trace (env : Env) (cmd : List String) (tt : Nat)
    (input : Option String) :
    (_safe_run_tts_command env cmd tt input).2 = [] ∨
    ∃ name rest fp, cmd = name :: rest ∧ name ∈ TRUSTED_TTS_ENGINES ∧
      env.which name = some fp ∧
      (_safe_run_tts_command env cmd tt input).2 =
        [Event.spawn fp (fp :: rest)] := by
  cases cmd with
  | nil => exact Or.inl rfl
  | cons name rest =>
    by_cases hmem : name ∈ TRUSTED_TTS_ENGINES
    · cases hw : env.which name with
      | none =>
        left
        simp [_safe_run_tts_command, hmem, hw]
      | some fp =>
        right
        refine ⟨name, rest, fp, rfl, hmem, hw, ?_⟩
        simp only [_safe_run_tts_command, hmem, if_true, hw]
        by_cases hpf : (match input with
            | some data => env.pipeFails data
            | none => false) = true
        · rw [if_pos hpf]
        · rw [if_neg hpf]
          cases (wait_for_process (env.poll fp (fp :: rest)) tt).1 with
          | ok ec => by_cases hec : ec ≠ 0 <;> simp [hec]
          | cmdError => rfl
          | cmdTimeout => rfl
    · left
      simp [_safe_run_tts_command, hmem]

theorem safe_run_tts_events (env : Env) (cmd : List String) (tt : Nat)
    (input : Option String) :
    ∀ e ∈ (_safe_run_tts_command env cmd tt input).2,
      SpawnSafe env TRUSTED_TTS_ENGINES e ∧ ∃ fp args, e = .spawn fp args := by
  intro e he
  rcases safe_run_tts_trace env cmd tt input with
    h | ⟨name, rest, fp, _, hmem, hw, h⟩
  · rw [h] at he
    simp at he
  · rw [h] at he
    simp at he
    subst he
    exact ⟨⟨name, rest, hmem, hw, rfl⟩, fp, fp :: rest, rfl⟩

/-- Each event of one `play_sound` loop step comes from the attempted
player or from the rest of the loop. -/
theorem playSoundLoop_cons_sub (env : Env) (c : List String)
    (rest : List (List String)) :
    ∀ e, e ∈ (playSoundLoop env (c :: rest)).2 →
      e ∈ (_safe_run_audio_command env c AUDIO_PLAYBACK_TIMEOUT_TICKS).2 ∨
      e ∈ (playSoundLoop env rest).2 ∨ e = Event.bell := by
  intro e
  rw [playSoundLoop]
  cases hwv : env.which (c.headD "") with
  | none =>
    intro he
    right
    left
    simpa using he
  | some fp =>
    intro he
    simp only [Option.isSome_some, if_true] at he
    revert he
    rcases hr : _safe_run_audio_command env c AUDIO_PLAYBACK_TIMEOUT_TICKS
      with ⟨res, ev⟩
    intro he
    cases res with
    | ok v =>
      left
      simpa using he
    | error err =>
      simp at he
      rcases he with h | h
      · left
        simpa using h
      · right
        left
        exact h

theorem playSoundLoop_events (env : Env) :
    ∀ cmds e, e ∈ (playSoundLoop env cmds).2 →
      SpawnSafe env TRUSTED_AUDIO_PLAYERS e := by
  intro cmds
  induction cmds with
  | nil =>
    intro e he
    simp [playSoundLoop] at he
    subst he
    trivial
  | cons c rest ih =>
    intro e he
    rcases playSoundLoop_cons_sub env c rest e he with h | h | h
    · exact safe_run_audio_events env c AUDIO_PLAYBACK_TIMEOUT_TICKS e h
    · exact ih e h
    · subst h
      trivial

theorem play_sound_events (env : Env) (p : Option String) :
    ∀ e ∈ (play_sound env p).2, SpawnSafe env TRUSTED_AUDIO_PLAYERS e := by
  intro e he
  simp only [play_sound] at he
  revert he
  cases hres : (match p with
      | none => get_default_sound env
      | some q => some q) with
  | none =>
    intro he
    simp at he
    subst he
    trivial
  | some q =>
    intro he
    by_cases hq : env.exists_file q = true
    · simp only [hq, if_true] at he
      exact playSoundLoop_events env (soundPlayers q) e he
    · simp only [Bool.not_eq_true] at hq
      simp [hq] at he
      subst he
      trivial

theorem playAudioFileLoop_cons_sub (env : Env) (c : List String)
    (rest : List (List String)) :
    ∀ e, e ∈ (playAudioFileLoop env (c :: rest)).2 →
      (∃ fp, (c.headD "") ∈ TRUSTED_AUDIO_PLAYERS ∧
        env.which (c.headD "") = some fp ∧ e = Event.spawn fp (fp :: c.tail)) ∨
      e ∈ (playAudioFileLoop env rest).2 := by
  intro e
  simp only [playAudioFileLoop]
  by_cases hmem : (c.headD "") ∈ TRUSTED_AUDIO_PLAYERS
  · rw [if_pos hmem]
    cases hw : env.which (c.headD "") with
    | none =>
      intro he
      right
      exact he
    | some fp =>
      intro he
      simp only [] at he
      revert he
      cases hwr : (wait_for_process (env.poll fp (fp :: c.tail))
          TTS_TIMEOUT_TICKS).1 with
      | ok ec =>
        cases ec with
        | zero =>
          intro he
          simp at he
          subst he
          exact Or.inl ⟨fp, hmem, rfl, rfl⟩
        | succ n =>
          intro he
          simp at he
          rcases he with h | h
          · exact Or.inl ⟨fp, hmem, rfl, h⟩
          · exact Or.inr h
      | cmdError =>
        intro he
        simp at he
        rcases he with h | h
        · exact Or.inl ⟨fp, hmem, rfl, h⟩
        · exact Or.inr h
      | cmdTimeout =>
        intro he
        simp at he
        rcases he with h | h
        · exact Or.inl ⟨fp, hmem, rfl, h⟩
        · exact Or.inr h
  · rw [if_neg hmem]
    intro he
    right
    exact he

theorem playAudioFileLoop_events (env : Env) :
    ∀ cmds e, e ∈ (playAudioFileLoop env cmds).2 →
      SpawnSafe env TRUSTED_AUDIO_PLAYERS e := by
  intro cmds
  induction cmds with
  | nil => intro e he; simp [playAudioFileLoop] at he
  | cons c rest ih =>
    intro e he
    rcases playAudioFileLoop_cons_sub env c rest e he with ⟨fp, hmem, hw, h⟩ | h
    · subst h
      exact ⟨c.headD "", c.tail, hmem, hw, rfl⟩
    · exact ih e h

theorem play_audio_file_events (env : Env) (p : String) :
    ∀ e ∈ (_play_audio_file env p).2, SpawnSafe env TRUSTED_AUDIO_PLAYERS e := by
  intro e he
  simp only [_play_audio_file] at he
  by_cases hr : (play_sound env (some p)).1 = true
  · simp only [hr, if_true] at he
    exact play_sound_events env (some p) e he
  · simp only [Bool.not_eq_true] at hr
    simp only [hr, Bool.false_eq_true, if_false] at he
    simp at he
    rcases he with h | h
    · exact play_sound_events env (some p) e h
    · exact playAudioFileLoop_events env (ttsFallbackPlayers p) e h

theorem speak_elevenlabs_events (env : Env) (msg : String)
    (cfg : ElevenLabsConfig) :
    ∀ e ∈ (_speak_elevenlabs env msg cfg).2,
      SpawnSafe env TRUSTED_AUDIO_PLAYERS e := by
  intro e he
  simp only [_speak_elevenlabs] at he
  by_cases hk : pyFalsyKey cfg.api_key = true
  · simp [hk] at he
  · simp only [Bool.not_eq_true] at hk
    simp only [hk, Bool.false_eq_true, if_false] at he
    revert he
    cases hh : env.http (ELEVENLABS_API_URL ++ "/" ++ cfg.voice_id) msg with
    | statusError =>
      intro he
      simp at he
      subst he
      trivial
    | transportError =>
      intro he
      simp at he
      subst he
      trivial
    | success =>
      intro he
      simp at he
      rcases he with h | h | h | h
      · subst h; trivial
      · subst h; trivial
      · exact play_audio_file_events env env.tempName e h
      · subst h; trivial

theorem speakLocalLoop_cons_sub (env : Env) (msg : String) (c : List String)
    (rest : List (List String)) :
    ∀ e, e ∈ (speakLocalLoop env msg (c :: rest)).2 →
      (∃ input, e ∈ (_safe_run_tts_command env c TTS_TIMEOUT_TICKS input).2) ∨
      e ∈ (speakLocalLoop env msg rest).2 := by
  intro e
  rw [speakLocalLoop]
  cases hwv : env.which (c.headD "") with
  | none =>
    intro he
    right
    simpa using he
  | some fp =>
    intro he
    simp only [Option.isSome_some, if_true] at he
    revert he
    by_cases hf : (c.headD "" == "festival") = true
    · rw [if_pos hf]
      rcases hr : _safe_run_tts_command env c TTS_TIMEOUT_TICKS (some msg)
        with ⟨res, ev⟩
      intro he
      cases res with
      | ok v =>
        left
        exact ⟨some msg, by rw [hr]; simpa using he⟩
      | error err =>
        simp at he
        rcases he with h | h
        · exact Or.inl ⟨some msg, by rw [hr]; simpa using h⟩
        · exact Or.inr h
    · rw [if_neg hf]
      rcases hr : _safe_run_tts_command env c TTS_TIMEOUT_TICKS none
        with ⟨res, ev⟩
      intro he
      cases res with
      | ok v =>
        left
        exact ⟨none, by rw [hr]; simpa using he⟩
      | error err =>
        simp at he
        rcases he with h | h
        · exact Or.inl ⟨none, by rw [hr]; simpa using h⟩
        · exact Or.inr h

theorem speakLocalLoop_events (env : Env) (msg : String) :
    ∀ cmds e, e ∈ (speakLocalLoop env msg cmds).2 →
      SpawnSafe env TRUSTED_TTS_ENGINES e ∧ ∃ fp args, e = .spawn fp args := by
  intro cmds
  induction cmds with
  | nil => intro e he; simp [speakLocalLoop] at he
  | cons c rest ih =>
    intro e he
    rcases speakLocalLoop_cons_sub env msg c rest e he with ⟨input, h⟩ | h
    · exact safe_run_tts_events env c TTS_TIMEOUT_TICKS input e h
    · exact ih e h

theorem speak_local_events (env : Env) (msg : String) :
    ∀ e ∈ (_speak_local env msg).2,
      SpawnSafe env TRUSTED_TTS_ENGINES e ∧ ∃ fp args, e = .spawn fp args :=
  fun e he => speakLocalLoop_events env msg (ttsCommands msg) e he

theorem speak_events (env : Env) (msg : String) :
    ∀ e ∈ (speak env msg).2,
      SpawnSafe env (TRUSTED_AUDIO_PLAYERS ++ TRUSTED_TTS_ENGINES) e := by
  have monoA : ∀ x ∈ TRUSTED_AUDIO_PLAYERS,
      x ∈ TRUSTED_AUDIO_PLAYERS ++ TRUSTED_TTS_ENGINES :=
    fun x hx => List.mem_append_left _ hx
  have monoT : ∀ x ∈ TRUSTED_TTS_ENGINES,
      x ∈ TRUSTED_AUDIO_PLAYERS ++ TRUSTED_TTS_ENGINES :=
    fun x hx => List.mem_append_right _ hx
  intro e he
  simp only [speak] at he
  by_cases hm : (msg == "") = true
  · simp [hm] at he
  · simp only [Bool.not_eq_true] at hm
    simp only [hm, Bool.false_eq_true, if_false] at he
    by_cases hen : (get_elevenlabs_config env).enabled = true
    · simp only [hen, if_true] at he
      revert he
      rcases hsp : _speak_elevenlabs env msg (get_elevenlabs_config env)
        with ⟨b, ev⟩
      intro he
      have hevE : ∀ x ∈ ev,
          SpawnSafe env (TRUSTED_AUDIO_PLAYERS ++ TRUSTED_TTS_ENGINES) x := by
        intro x hx
        exact SpawnSafe_mono monoA
          (speak_elevenlabs_events env msg (get_elevenlabs_config env) x
            (by rw [hsp]; exact hx))
      cases b with
      | true => exact hevE e (by simpa using he)
      | false =>
        simp at he
        rcases he with h | h
        · exact hevE e h
        · exact SpawnSafe_mono monoT (speak_local_events env msg e h).1
    · simp only [Bool.not_eq_true] at hen
      simp only [hen, Bool.false_eq_true, if_false] at he
      exact SpawnSafe_mono monoT (speak_local_events env msg e he).1
/-- C5: executables spawned anywhere in the audio and speech fallback
chains always carry a name from the fixed hardcoded allowlists, resolved
through `shutil.which` before spawning, with arguments passed as a list
headed by the resolved path; and a command whose executable name is
outside the allowlist makes the run helper raise `ValueError` with no
process spawned (an empty event trace). -/
theorem spawn_allowlist_safety (env : Env) :
    (∀ cmd tt, cmd.headD "" ∉ TRUSTED_AUDIO_PLAYERS →
      _safe_run_audio_command env cmd tt = (.error .valueError, [])) ∧
    (∀ cmd tt input, cmd.headD "" ∉ TRUSTED_TTS_ENGINES →
      _safe_run_tts_command env cmd tt input = (.error .valueError, [])) ∧
    (∀ p e, e ∈ (play_sound env p).2 →
      SpawnSafe env (TRUSTED_AUDIO_PLAYERS ++ TRUSTED_TTS_ENGINES) e) ∧
    (∀ msg e, e ∈ (speak env msg).2 →
      SpawnSafe env (TRUSTED_AUDIO_PLAYERS ++ TRUSTED_TTS_ENGINES) e) := by
  have monoA : ∀ x ∈ TRUSTED_AUDIO_PLAYERS,
      x ∈ TRUSTED_AUDIO_PLAYERS ++ TRUSTED_TTS_ENGINES :=
    fun x hx => List.mem_append_left _ hx
  refine ⟨?_, ?_, ?_, ?_⟩
  · intro cmd tt hno
    cases cmd with
    | nil => rfl
    | cons name rest =>
      have hno' : name ∉ TRUSTED_AUDIO_PLAYERS := by simpa using hno
      simp [_safe_run_audio_command, hno']
  · intro cmd tt input hno
    cases cmd with
    | nil => rfl
    | cons name rest =>
      have hno' : name ∉ TRUSTED_TTS_ENGINES := by simpa using hno
      simp [_safe_run_tts_command, hno']
  · intro p e he
    exact SpawnSafe_mono monoA (play_sound_events env p e he)
  · intro msg e he
    exact speak_events env msg e he

theorem spawn_allowlist_safety_witness :
    _safe_run_audio_command testEnv ["rm", "-rf", "/"] 1 =
      (.error .valueError, []) ∧
    _safe_run_tts_command testEnv ["bash", "-c", "true"] 1 none =
      (.error .valueError, []) ∧
    SpawnSafe testEnv (TRUSTED_AUDIO_PLAYERS ++ TRUSTED_TTS_ENGINES)
      Event.bell := by
  refine ⟨(spawn_allowlist_safety testEnv).1 ["rm", "-rf", "/"] 1 (by decide),
    (spawn_allowlist_safety testEnv).2.1 ["bash", "-c", "true"] 1 none
      (by decide),
    (spawn_allowlist_safety testEnv).2.2.1 none Event.bell ?_⟩
  show Event.bell ∈ (play_sound testEnv none).2
  decide

/-! ## Claim C6 -/

/-- C6 counterexample: with a config file whose `elevenlabs.api_key` is the
empty string (and no environment variable), the resolved API key is the
empty string yet `enabled` is `true` — the code tests `api_key is not
None`, not non-emptiness — so "empty resolved API key implies enabled is
false" is false as stated. -/
theorem elevenlabs_enabled_empty_key_counterexample :
    (get_elevenlabs_config envC6).api_key = some "" ∧
    (get_elevenlabs_config envC6).enabled = true := by
  constructor <;> rfl

/-- C6 (amended): `enabled` is true only if the resolved API key is
**present** (not `None`; an empty string from the config file counts as
present) and the config file has no explicit `enabled:false`; in
particular, whenever the resolved API key is `None`, `enabled` is
false. -/
theorem elevenlabs_enabled_requires_key_present (env : Env)
    (h : (get_elevenlabs_config env).enabled = true) :
    ((get_elevenlabs_config env).api_key).isSome = true ∧
    ((load_config env.userConfig env.systemConfig).elevenlabs.getD
      emptySection).enabled ≠ some false := by
  simp only [get_elevenlabs_config, Bool.and_eq_true] at h
  refine ⟨h.2, fun hf => ?_⟩
  rw [hf] at h
  simp at h

theorem elevenlabs_enabled_requires_key_present_witness :
    ((get_elevenlabs_config envC6).api_key).isSome = true ∧
    ((load_config envC6.userConfig envC6.systemConfig).elevenlabs.getD
      emptySection).enabled ≠ some false :=
  elevenlabs_enabled_requires_key_present envC6 rfl

/-! ## Claim C7 -/

/-- C7: when the cloud tier gets an HTTP-success response, its event trace
is exactly the HTTP call, the creation of the temporary audio file, the
playback events, and — last, on every exit path and whatever the playback
outcome — the deletion of that same temporary file. -/
theorem elevenlabs_temp_file_cleanup (env : Env) (message : String)
    (config : ElevenLabsConfig) (hkey : pyFalsyKey config.api_key = false)
    (hhttp : env.http (ELEVENLABS_API_URL ++ "/" ++ config.voice_id) message =
      .success) :
    (_speak_elevenlabs env message config).2 =
      [.httpCall (ELEVENLABS_API_URL ++ "/" ++ config.voice_id),
       .tempCreate env.tempName] ++
      (_play_audio_file env env.tempName).2 ++ [.tempDelete env.tempName] := by
  simp [_speak_elevenlabs, hkey, hhttp]

theorem elevenlabs_temp_file_cleanup_witness :
    (_speak_elevenlabs envHttp "hi"
      { enabled := true, api_key := some "k", voice_id := "v",
        model_id := "m" }).2 =
      [.httpCall (ELEVENLABS_API_URL ++ "/" ++ "v"),
       .tempCreate envHttp.tempName] ++
      (_play_audio_file envHttp envHttp.tempName).2 ++
      [.tempDelete envHttp.tempName] :=
  elevenlabs_temp_file_cleanup envHttp "hi"
    { enabled := true, api_key := some "k", voice_id := "v", model_id := "m" }
    rfl rfl

/-! ## Claim C9 -/

/-- Every event the local TTS tier records is a process spawn; in
particular it performs no HTTP call. -/
theorem speak_local_no_http (env : Env) (msg : String) :
    ∀ u, Event.httpCall u ∉ (_speak_local env msg).2 := by
  intro u hu
  obtain ⟨_, fp, args, heq⟩ := speak_local_events env msg _ hu
  exact Event.noConfusion heq

/-- C9: whenever the resolved configuration's API key is `None` or the
empty string, the cloud tier returns `False` at once with no events (in
particular no network request), even if `enabled` is true; `speak` then
behaves exactly as the local engine tier, and its whole trace contains no
HTTP call. -/
theorem speak_degrades_without_key (env : Env) (message : String)
    (hkey : pyFalsyKey (get_elevenlabs_config env).api_key = true)
    (hmsg : message ≠ "") :
    _speak_elevenlabs env message (get_elevenlabs_config env) = (false, []) ∧
    speak env message = _speak_local env message ∧
    (∀ u, Event.httpCall u ∉ (speak env message).2) := by
  have h1 : _speak_elevenlabs env message (get_elevenlabs_config env) =
      (false, []) := by
    simp [_speak_elevenlabs, hkey]
  have hm : (message == "") = false := by
    simpa using hmsg
  have h2 : speak env message = _speak_local env message := by
    simp only [speak, hm, Bool.false_eq_true, if_false]
    by_cases hen : (get_elevenlabs_config env).enabled = true
    · simp only [hen, if_true, h1]
      simp
    · simp only [Bool.not_eq_true] at hen
      simp only [hen, Bool.false_eq_true, if_false]
  refine ⟨h1, h2, fun u hu => ?_⟩
  rw [h2] at hu
  exact speak_local_no_http env message u hu

theorem speak_degrades_without_key_witness :
    _speak_elevenlabs envC6 "hi" (get_elevenlabs_config envC6) = (false, []) ∧
    speak envC6 "hi" = _speak_local envC6 "hi" ∧
    (∀ u, Event.httpCall u ∉ (speak envC6 "hi").2) :=
  speak_degrades_without_key envC6 "hi" rfl (by decide)

end AudioNotify
